import Mathlib

/-!
Verification of the Kuzzle Terraform provider's configuration and
authentication logic (package `kuzzle`, files `provider.go` and its tests).

The embedding models each helper operation as a function of the HTTP
result of the single request it issues.  Go's `error` return values are
modelled with `Option`/`Outcome.err`; a Go runtime panic (failed type
assertion, nil-pointer dereference) is modelled with the distinguished
`Outcome.panic` / `.panicked` constructors, since a panic is not a
returned error.
-/

set_option autoImplicit false

namespace Kuzzle

/-- A JSON value, as produced by `json.Unmarshal` into `interface`-typed
variables.  Numbers are irrelevant to this code path and kept as `Int`. -/
inductive Json where
  | null
  | bool (b : Bool)
  | num (n : Int)
  | str (s : String)
  | arr (elems : List Json)
  | obj (fields : List (String × Json))

/-- The result of the single HTTP request an operation issues:
either the transport failed (`client.Get`/`client.Post` returned a non-nil
error, with an opaque cause message), or a response arrived with a status
code and a body.  The body is recorded as the outcome of parsing it as
JSON: `none` when the bytes are not valid JSON. -/
inductive HttpResult where
  | transportError (cause : String)
  | response (status : Nat) (body : Option Json)

/-- Errors returned (as Go `error` values) by the helper operations. -/
inductive KErr where
  | connectionError (cause : String)
  | serverUnreachable
  | formatError
  | invalidToken
  | authFailed
deriving DecidableEq

/-- The `Error()` message of each error value.  Transport and JSON-decoding
messages come from the Go standard library; the JSON one is opaque and
modelled by a fixed string since no code inspects it. -/
def KErr.msg : KErr → String
  | .connectionError cause => cause
  | .serverUnreachable => "Kuzzle server is not reachable"
  | .formatError => "json unmarshal error"
  | .invalidToken => "Kuzzle API key is invalid"
  | .authFailed => "Kuzzle authentication failed"

/-- Outcome of running a Go function that returns an error or a value,
with a third possibility: an uncaught runtime panic. -/
inductive Outcome (ε : Type) (α : Type) where
  | ok (a : α)
  | err (e : ε)
  | panic
deriving DecidableEq

/-- Holds (as `true`) exactly on `Outcome.err`. -/
def Outcome.isErr {ε α : Type} : Outcome ε α → Bool
  | .err _ => true
  | _ => false

/-- Model of `json.Unmarshal(body, &jsonBody)` where `jsonBody` is
`map[string]interface`-typed: succeeds on a JSON object (yielding its
fields) and on JSON `null` (leaving the map nil, so every lookup yields
a nil value); fails on anything else. -/
def unmarshalObj : Option Json → Option (List (String × Json))
  | some (Json.obj fields) => some fields
  | some Json.null => some []
  | _ => none

/-- Go map indexing `m[k]`: the value stored at `k`, or nil (`none`)
when the key is absent. -/
def lookupJ : List (String × Json) → String → Option Json
  | [], _ => none
  | (k, v) :: rest, key => if k = key then some v else lookupJ rest key

/-- Model of `checkConnection` (provider.go): issues `GET endpoint`; returns the
transport error if the request could not be sent, the
"Kuzzle server is not reachable" error on status 502 or 503, and nil
otherwise.  The returned value is the Go `error`: `none` means success. -/
def checkConnection (resp : HttpResult) : Option KErr :=
  match resp with
  | .transportError cause => some (.connectionError cause)
  | .response status _ =>
    if status = 502 ∨ status = 503 then some .serverUnreachable else none

/-- Model of `checkToken` (provider.go): issues `POST endpoint/_checkToken` with
body containing the token.  On transport failure, returns that error.
On a non-200 status it executes `return err` where `err` is nil, hence
returns success.  On 200 it unmarshals the body (failure returned as an
error), then evaluates
the unchecked type assertions on `result` and `result.valid`
(a mismatch is a runtime panic), and returns the
"Kuzzle API key is invalid" error when `valid` is not true. -/
def checkToken (resp : HttpResult) : Outcome KErr Unit :=
  match resp with
  | .transportError cause => .err (.connectionError cause)
  | .response status body =>
    if status ≠ 200 then
      .ok ()
    else
      match unmarshalObj body with
      | none => .err .formatError
      | some jsonBody =>
        match lookupJ jsonBody "result" with
        | some (Json.obj result) =>
          match lookupJ result "valid" with
          | some (Json.bool valid) => if valid then .ok () else .err .invalidToken
          | _ => .panic
        | _ => .panic

/-- Model of `tryAuthenticate` (provider.go): issues `POST endpoint/_login/local`
with the credentials.  On transport failure, returns that error.  On a
non-200 status, returns the "Kuzzle authentication failed" error.  On
200 it unmarshals the body (failure returned as an error), then
evaluates the unchecked type assertions on `result` and `result.jwt`
(a mismatch is a runtime panic) and returns the jwt string. -/
def tryAuthenticate (resp : HttpResult) : Outcome KErr String :=
  match resp with
  | .transportError cause => .err (.connectionError cause)
  | .response status body =>
    if status ≠ 200 then
      .err .authFailed
    else
      match unmarshalObj body with
      | none => .err .formatError
      | some jsonBody =>
        match lookupJ jsonBody "result" with
        | some (Json.obj result) =>
          match lookupJ result "jwt" with
          | some (Json.str jwt) => .ok jwt
          | _ => .panic
        | _ => .panic

/-- The provider `Config` struct: endpoint and resolved token. -/
structure Config where
  endpoint : String
  token : String
deriving DecidableEq

/-- Diagnostic severity (terraform-plugin-sdk `diag.Severity`). -/
inductive Severity where
  | error
  | warning
deriving DecidableEq

/-- A terraform-plugin-sdk `diag.Diagnostic`. -/
structure Diagnostic where
  severity : Severity
  summary : String
  detail : String
deriving DecidableEq

/-- The HTTP results the network would give to each of the three requests
`providerConfigure` can issue: `GET endpoint` (root), `POST
endpoint/_login/local` (login), `POST endpoint/_checkToken` (checkTok). -/
structure World where
  root : HttpResult
  login : HttpResult
  checkTok : HttpResult

/-- Result of `providerConfigure`: a normal return of the named values
`(config, diags)` — where `config` is nil or one `Config` — or an
uncaught panic propagated from a helper. -/
inductive ConfigureResult where
  | ret (config : Option Config) (diags : List Diagnostic)
  | panicked
deriving DecidableEq

/-- The diagnostic built by `diag.Errorf("Error connecting to Kuzzle: %s", err)`:
an Error whose summary is the formatted message and whose detail is empty. -/
def connectDiag (e : KErr) : Diagnostic :=
  ⟨Severity.error, "Error connecting to Kuzzle: " ++ e.msg, ""⟩

/-- The diagnostic appended when `tryAuthenticate` fails. -/
def authFailedDiag (e : KErr) : Diagnostic :=
  ⟨Severity.error, "Kuzzle authentication failed", e.msg⟩

/-- The diagnostic appended when `checkToken` fails. -/
def apiKeyInvalidDiag (e : KErr) : Diagnostic :=
  ⟨Severity.error, "Kuzzle provided API key is invalid", e.msg⟩

/-- The warning appended when no authentication method produced a Config. -/
def anonymousWarning : Diagnostic :=
  ⟨Severity.warning, "Kuzzle authentication credentials not provided",
    "No authentication credentials provided. Using anonymous authentication..."⟩

/-- The api_key block and the anonymous-fallback block of
`providerConfigure`, entered with the named return values `config` and
`diags` as left by the username/password block.  If `apiKey` is non-empty,
`checkToken` is called: on failure the diagnostic is appended and the
function returns the CURRENT named `config` (a bare `return` of the named
values — it is not reset to nil); on success `config` is set to
`{endpoint, apiKey}`, making the `config == nil` fallback test false.  If
`apiKey` is empty and `config` is still nil, the warning is appended and
`config` is set to `{endpoint}` with its `Token` field left at `""`. -/
def afterAuth (endpoint apiKey : String) (config : Option Config)
    (diags : List Diagnostic) (w : World) : ConfigureResult :=
  if apiKey ≠ "" then
    match checkToken w.checkTok with
    | .panic => .panicked
    | .err e => .ret config (diags ++ [apiKeyInvalidDiag e])
    | .ok _ => .ret (some ⟨endpoint, apiKey⟩) diags
  else
    match config with
    | none => .ret (some ⟨endpoint, ""⟩) (diags ++ [anonymousWarning])
    | some c => .ret (some c) diags

/-- Model of `providerConfigure` (provider.go): checks the connection (fatal on
failure), then, if both username and password are non-empty, tries to
authenticate — on failure appending an Error diagnostic and returning the
still-nil config, on success setting `config = {endpoint, jwt}` — and
then runs the api_key and anonymous-fallback blocks (`afterAuth`). -/
def providerConfigure (endpoint apiKey username password : String)
    (w : World) : ConfigureResult :=
  match checkConnection w.root with
  | some e => .ret none [connectDiag e]
  | none =>
    if username ≠ "" ∧ password ≠ "" then
      match tryAuthenticate w.login with
      | .panic => .panicked
      | .err e => .ret none [authFailedDiag e]
      | .ok jwt => afterAuth endpoint apiKey (some ⟨endpoint, jwt⟩) [] w
    else
      afterAuth endpoint apiKey none [] w

/-- The parsed `url.URL` value, restricted to the one field this code
reads. -/
structure ParsedURL where
  scheme : String
deriving DecidableEq

/-- The pair returned by `url.Parse`: a possibly-nil `*url.URL` and
whether the error was non-nil.  On failure `url.Parse` returns
`(nil, err)`. -/
structure ParseOutcome where
  url : Option ParsedURL
  failed : Bool
deriving DecidableEq

/-- Result of the endpoint `ValidateFunc`: the returned `(ws, errors)`
slices, or a runtime panic. -/
inductive ValidateResult where
  | ret (ws : List String) (errs : List String)
  | panicked
deriving DecidableEq

/-- The endpoint schema `ValidateFunc` (inside `Provider`): appends a
"non-empty string" error when the value is empty, appends a "valid URL"
error when `url.Parse` failed, and then unconditionally reads
`URL.Scheme` — a nil-pointer dereference (runtime panic) whenever
`url.Parse` returned a nil URL — appending a scheme error unless the
scheme is http or https. -/
def validateEndpoint (v k : String) (parsed : ParseOutcome) : ValidateResult :=
  let errs0 := if v = "" then ["\"" ++ k ++ "\" must be a non-empty string"] else []
  let errs1 := if parsed.failed then errs0 ++ ["\"" ++ k ++ "\" must be a valid URL"] else errs0
  match parsed.url with
  | none => .panicked
  | some u =>
    let errs2 :=
      if u.scheme ≠ "http" ∧ u.scheme ≠ "https" then
        errs1 ++ ["\"" ++ k ++ "\" must be a valid URL with http or https scheme"]
      else errs1
    .ret [] errs2

/-- Holds (as `true`) exactly when the body unmarshals to an object whose `result`
field is an object whose `valid` field is the boolean `true` — the body
shape `{"result":{"valid": true}}` up to extra fields. -/
def validTrueBody (body : Option Json) : Bool :=
  match unmarshalObj body with
  | none => false
  | some jsonBody =>
    match lookupJ jsonBody "result" with
    | some (Json.obj result) =>
      match lookupJ result "valid" with
      | some (Json.bool valid) => valid
      | _ => false
    | _ => false

/-! ## Theorems -/

/-- At status 200, `checkToken` returns nil error exactly when the body
decodes to an object whose `result.valid` is the boolean `true`. -/
theorem checkToken_200_ok (b : Option Json) :
    checkToken (HttpResult.response 200 b) = Outcome.ok () ↔ validTrueBody b = true := by
  simp only [checkToken, validTrueBody]
  rw [if_neg (show ¬((200 : Nat) ≠ 200) by simp)]
  rcases b with _ | j
  · simp [unmarshalObj]
  · cases j <;> simp [unmarshalObj]
    case null => simp [lookupJ]
    case obj fields =>
      rcases hr : lookupJ fields "result" with _ | j
      · simp
      · cases j <;> simp
        case obj result =>
          rcases hv : lookupJ result "valid" with _ | jv
          · simp
          · cases jv <;> simp

/-- C1 (amended): `checkToken` succeeds (returns nil error) exactly when
a response arrived and either its status is not 200, or its status is
200 and its body decodes to JSON with `result.valid` equal to `true`; in
particular on every non-200 response it succeeds, because the non-200
branch returns the nil `err` value. -/
theorem checkToken_ok_iff (r : HttpResult) :
    checkToken r = Outcome.ok () ↔
      ∃ s b, r = HttpResult.response s b ∧ (s ≠ 200 ∨ validTrueBody b = true) := by
  cases r with
  | transportError c => simp [checkToken]
  | response s b =>
    by_cases h : s = 200
    · subst h
      rw [checkToken_200_ok]
      constructor
      · exact fun hv => ⟨200, b, rfl, Or.inr hv⟩
      · rintro ⟨s', b', heq, hd⟩
        injection heq with h1 h2
        subst h1; subst h2
        rcases hd with h200 | hv
        · exact absurd rfl h200
        · exact hv
    · constructor
      · intro _; exact ⟨s, b, rfl, Or.inl h⟩
      · intro _; simp [checkToken, h]

/-- C1 (counterexample): on the 403 response of the repository's own
"Not authorized" test case, `checkToken` returns nil error (success),
refuting "for every response with a non-200 status, checkToken fails";
the repository's test indeed expects `wantErr: false` here. -/
theorem checkToken_succeeds_on_403 :
    (403 : Nat) ≠ 200 ∧
    checkToken (HttpResult.response 403
        (some (Json.obj [("result", Json.str "Not Authorized")]))) = Outcome.ok () :=
  ⟨by decide, rfl⟩

/-- C3: at status 200 with a well-formed JSON body whose `result` is an
empty object — so `result.jwt` (resp. `result.valid`) is absent —
`tryAuthenticate` and `checkToken` do not return a FormatError: the
unchecked Go type assertion panics, an uncaught fault. -/
theorem helpers_panic_on_missing_result_field :
    tryAuthenticate (HttpResult.response 200
        (some (Json.obj [("result", Json.obj [])]))) = Outcome.panic ∧
    checkToken (HttpResult.response 200
        (some (Json.obj [("result", Json.obj [])]))) = Outcome.panic :=
  ⟨rfl, rfl⟩

/-- C5: `checkConnection` fails exactly when the request could not be
sent (transport failure) or the response status is 502 or 503; it
succeeds on every other status. -/
theorem checkConnection_fails_iff (r : HttpResult) :
    checkConnection r ≠ none ↔
      (∃ c, r = HttpResult.transportError c) ∨
      (∃ s b, r = HttpResult.response s b ∧ (s = 502 ∨ s = 503)) := by
  cases r with
  | transportError c => simp [checkConnection]
  | response s b =>
    by_cases h : s = 502 ∨ s = 503 <;> simp [checkConnection, h]

/-- C6: when the connection check fails with error `e`, the configurator
returns nil config and the single Error diagnostic
"Error connecting to Kuzzle: <cause>", and the outcome is the same for
every world agreeing on the root response — the login and token
requests are never consulted. -/
theorem providerConfigure_connection_failure
    (endpoint apiKey username password : String) (e : KErr) (w w' : World)
    (hconn : checkConnection w.root = some e) (hroot : w'.root = w.root) :
    providerConfigure endpoint apiKey username password w =
      ConfigureResult.ret none
        [⟨Severity.error, "Error connecting to Kuzzle: " ++ e.msg, ""⟩] ∧
    providerConfigure endpoint apiKey username password w' =
      providerConfigure endpoint apiKey username password w := by
  have h1 : providerConfigure endpoint apiKey username password w =
      ConfigureResult.ret none [connectDiag e] := by
    simp [providerConfigure, hconn]
  have h2 : providerConfigure endpoint apiKey username password w' =
      ConfigureResult.ret none [connectDiag e] := by
    simp [providerConfigure, hroot, hconn]
  exact ⟨h1, h2.trans h1.symm⟩

/-- Witness for C6 at a concrete unreachable endpoint; the two worlds
differ in their login and token responses. -/
theorem providerConfigure_connection_failure_witness :
    providerConfigure "http://kuzzle:7512" "" "" ""
        ⟨HttpResult.transportError "dial tcp: connection refused",
         HttpResult.response 200 none, HttpResult.response 200 none⟩ =
      ConfigureResult.ret none
        [⟨Severity.error,
          "Error connecting to Kuzzle: " ++
            (KErr.connectionError "dial tcp: connection refused").msg, ""⟩] ∧
    providerConfigure "http://kuzzle:7512" "" "" ""
        ⟨HttpResult.transportError "dial tcp: connection refused",
         HttpResult.response 502 none, HttpResult.transportError "x"⟩ =
      providerConfigure "http://kuzzle:7512" "" "" ""
        ⟨HttpResult.transportError "dial tcp: connection refused",
         HttpResult.response 200 none, HttpResult.response 200 none⟩ :=
  providerConfigure_connection_failure "http://kuzzle:7512" "" "" ""
    (KErr.connectionError "dial tcp: connection refused")
    ⟨HttpResult.transportError "dial tcp: connection refused",
     HttpResult.response 200 none, HttpResult.response 200 none⟩
    ⟨HttpResult.transportError "dial tcp: connection refused",
     HttpResult.response 502 none, HttpResult.transportError "x"⟩
    rfl rfl

/-- C7: with the connection check succeeding, both credentials non-empty
and no api_key: on login success with jwt `j` the configurator returns
`Config(endpoint, j)` with no diagnostics; on login failure it returns
nil config with the single "Kuzzle authentication failed" Error. -/
theorem providerConfigure_userPass
    (endpoint username password j : String) (e : KErr) (w : World)
    (hconn : checkConnection w.root = none)
    (hu : username ≠ "") (hp : password ≠ "") :
    (tryAuthenticate w.login = Outcome.ok j →
      providerConfigure endpoint "" username password w =
        ConfigureResult.ret (some ⟨endpoint, j⟩) []) ∧
    (tryAuthenticate w.login = Outcome.err e →
      providerConfigure endpoint "" username password w =
        ConfigureResult.ret none [authFailedDiag e]) := by
  constructor
  · intro ha
    simp [providerConfigure, hconn, hu, hp, ha, afterAuth]
  · intro ha
    simp [providerConfigure, hconn, hu, hp, ha]

/-- Witness for C7 on the repository's own test data: login returns
the jwt "mySuperAuthenticationToken". -/
theorem providerConfigure_userPass_witness :
    (tryAuthenticate (HttpResult.response 200 (some (Json.obj
        [("result", Json.obj [("jwt", Json.str "mySuperAuthenticationToken")])]))) =
          Outcome.ok "mySuperAuthenticationToken" →
      providerConfigure "http://kuzzle:7512" "" "u1" "p1"
          ⟨HttpResult.response 200 (some (Json.obj [("result", Json.str "ok")])),
           HttpResult.response 200 (some (Json.obj
             [("result", Json.obj [("jwt", Json.str "mySuperAuthenticationToken")])])),
           HttpResult.response 200 none⟩ =
        ConfigureResult.ret
          (some ⟨"http://kuzzle:7512", "mySuperAuthenticationToken"⟩) []) ∧
    (tryAuthenticate (HttpResult.response 200 (some (Json.obj
        [("result", Json.obj [("jwt", Json.str "mySuperAuthenticationToken")])]))) =
          Outcome.err KErr.authFailed →
      providerConfigure "http://kuzzle:7512" "" "u1" "p1"
          ⟨HttpResult.response 200 (some (Json.obj [("result", Json.str "ok")])),
           HttpResult.response 200 (some (Json.obj
             [("result", Json.obj [("jwt", Json.str "mySuperAuthenticationToken")])])),
           HttpResult.response 200 none⟩ =
        ConfigureResult.ret none [authFailedDiag KErr.authFailed]) :=
  providerConfigure_userPass "http://kuzzle:7512" "u1" "p1"
    "mySuperAuthenticationToken" KErr.authFailed
    ⟨HttpResult.response 200 (some (Json.obj [("result", Json.str "ok")])),
     HttpResult.response 200 (some (Json.obj
       [("result", Json.obj [("jwt", Json.str "mySuperAuthenticationToken")])])),
     HttpResult.response 200 none⟩
    rfl (by decide) (by decide)

/-- C8: with the connection check succeeding and neither a full
username/password pair nor an api_key supplied, the configurator
returns `Config(endpoint, "")` together with exactly the one Warning
diagnostic about missing credentials. -/
theorem providerConfigure_anonymous
    (endpoint apiKey username password : String) (w : World)
    (hconn : checkConnection w.root = none)
    (hcred : username = "" ∨ password = "") (hk : apiKey = "") :
    providerConfigure endpoint apiKey username password w =
      ConfigureResult.ret (some ⟨endpoint, ""⟩) [anonymousWarning] ∧
    anonymousWarning.severity = Severity.warning := by
  have hup : ¬(username ≠ "" ∧ password ≠ "") := by
    rcases hcred with h | h <;> simp [h]
  subst hk
  refine ⟨?_, rfl⟩
  simp [providerConfigure, hconn, hup, afterAuth]

/-- Witness for C8: reachable endpoint, no credentials at all. -/
theorem providerConfigure_anonymous_witness :
    providerConfigure "http://kuzzle:7512" "" "" ""
        ⟨HttpResult.response 200 (some (Json.obj [("result", Json.str "ok")])),
         HttpResult.response 200 none, HttpResult.response 200 none⟩ =
      ConfigureResult.ret (some ⟨"http://kuzzle:7512", ""⟩) [anonymousWarning] ∧
    anonymousWarning.severity = Severity.warning :=
  providerConfigure_anonymous "http://kuzzle:7512" "" "" ""
    ⟨HttpResult.response 200 (some (Json.obj [("result", Json.str "ok")])),
     HttpResult.response 200 none, HttpResult.response 200 none⟩
    rfl (Or.inl rfl) rfl

/-- C9: when exactly one of username and password is non-empty and the
connection check succeeds, the login request is never consulted (the
outcome is unchanged by the login response), and the outcome is the one
obtained with no credentials at all: the partial pair is silently
ignored and resolution falls through to the api_key and anonymous
branches. -/
theorem providerConfigure_partial_credentials
    (endpoint apiKey username password : String) (w w' : World)
    (hpart : (username ≠ "" ∧ password = "") ∨ (username = "" ∧ password ≠ ""))
    (hconn : checkConnection w.root = none)
    (hroot : w'.root = w.root) (htok : w'.checkTok = w.checkTok) :
    providerConfigure endpoint apiKey username password w' =
      providerConfigure endpoint apiKey username password w ∧
    providerConfigure endpoint apiKey username password w =
      providerConfigure endpoint apiKey "" "" w := by
  have hup : ¬(username ≠ "" ∧ password ≠ "") := by
    rcases hpart with ⟨h1, h2⟩ | ⟨h1, h2⟩ <;> simp [h1, h2]
  have h1 : providerConfigure endpoint apiKey username password w =
      afterAuth endpoint apiKey none [] w := by
    simp [providerConfigure, hconn, hup]
  have h2 : providerConfigure endpoint apiKey "" "" w =
      afterAuth endpoint apiKey none [] w := by
    simp [providerConfigure, hconn]
  have h3 : providerConfigure endpoint apiKey username password w' =
      afterAuth endpoint apiKey none [] w' := by
    simp [providerConfigure, hroot, hconn, hup]
  have h4 : afterAuth endpoint apiKey none [] w' =
      afterAuth endpoint apiKey none [] w := by
    simp [afterAuth, htok]
  exact ⟨h3.trans (h4.trans h1.symm), h1.trans h2.symm⟩

/-- Witness for C9: username "bob" with empty password and an api_key;
the two worlds differ only in the login response. -/
theorem providerConfigure_partial_credentials_witness :
    providerConfigure "http://kuzzle:7512" "abc123" "bob" ""
        ⟨HttpResult.response 200 (some (Json.obj [("result", Json.str "ok")])),
         HttpResult.response 500 none,
         HttpResult.response 200 (some (Json.obj
           [("result", Json.obj [("valid", Json.bool true)])]))⟩ =
      providerConfigure "http://kuzzle:7512" "abc123" "bob" ""
        ⟨HttpResult.response 200 (some (Json.obj [("result", Json.str "ok")])),
         HttpResult.transportError "x",
         HttpResult.response 200 (some (Json.obj
           [("result", Json.obj [("valid", Json.bool true)])]))⟩ ∧
    providerConfigure "http://kuzzle:7512" "abc123" "bob" ""
        ⟨HttpResult.response 200 (some (Json.obj [("result", Json.str "ok")])),
         HttpResult.transportError "x",
         HttpResult.response 200 (some (Json.obj
           [("result", Json.obj [("valid", Json.bool true)])]))⟩ =
      providerConfigure "http://kuzzle:7512" "abc123" "" ""
        ⟨HttpResult.response 200 (some (Json.obj [("result", Json.str "ok")])),
         HttpResult.transportError "x",
         HttpResult.response 200 (some (Json.obj
           [("result", Json.obj [("valid", Json.bool true)])]))⟩ :=
  providerConfigure_partial_credentials "http://kuzzle:7512" "abc123" "bob" ""
    ⟨HttpResult.response 200 (some (Json.obj [("result", Json.str "ok")])),
     HttpResult.transportError "x",
     HttpResult.response 200 (some (Json.obj
       [("result", Json.obj [("valid", Json.bool true)])]))⟩
    ⟨HttpResult.response 200 (some (Json.obj [("result", Json.str "ok")])),
     HttpResult.response 500 none,
     HttpResult.response 200 (some (Json.obj
       [("result", Json.obj [("valid", Json.bool true)])]))⟩
    (Or.inl ⟨by decide, rfl⟩) rfl rfl rfl

/-- C2 (counterexample): username/password authenticate successfully
(config is set to the jwt "J"), then the api_key check fails with a
transport error; the bare `return` of the named values yields the
Config from the username/password step together with the Error
diagnostic — not a nil Config as claimed. -/
theorem providerConfigure_apiKey_failure_counterexample :
    tryAuthenticate (HttpResult.response 200 (some (Json.obj
        [("result", Json.obj [("jwt", Json.str "J")])]))) = Outcome.ok "J" ∧
    checkToken (HttpResult.transportError "connection refused") =
      Outcome.err (KErr.connectionError "connection refused") ∧
    providerConfigure "http://kuzzle:7512" "abc123" "user" "pass"
        ⟨HttpResult.response 200 (some (Json.obj [])),
         HttpResult.response 200 (some (Json.obj
           [("result", Json.obj [("jwt", Json.str "J")])])),
         HttpResult.transportError "connection refused"⟩ =
      ConfigureResult.ret (some ⟨"http://kuzzle:7512", "J"⟩)
        [apiKeyInvalidDiag (KErr.connectionError "connection refused")] :=
  ⟨rfl, rfl, rfl⟩

/-- C2 (amended): under the claim's hypotheses — connection ok, both
credentials non-empty, login succeeding with jwt `j`, non-empty api_key
whose check fails — the configurator appends the "Kuzzle provided API
key is invalid" Error diagnostic and returns the Config set by the
username/password step (the named `config` is not reset to nil by the
bare `return`). -/
theorem providerConfigure_apiKey_failure_keeps_userPass_config
    (endpoint apiKey username password j : String) (e : KErr) (w : World)
    (hconn : checkConnection w.root = none)
    (hu : username ≠ "") (hp : password ≠ "")
    (hauth : tryAuthenticate w.login = Outcome.ok j)
    (hk : apiKey ≠ "")
    (htok : checkToken w.checkTok = Outcome.err e) :
    providerConfigure endpoint apiKey username password w =
      ConfigureResult.ret (some ⟨endpoint, j⟩) [apiKeyInvalidDiag e] := by
  simp [providerConfigure, hconn, hu, hp, hauth, afterAuth, hk, htok]

/-- Witness for the amended C2: the api_key check fails because the
server answers `result.valid = false`. -/
theorem providerConfigure_apiKey_failure_witness :
    providerConfigure "http://k:7512" "key1" "alice" "pw"
        ⟨HttpResult.response 200 none,
         HttpResult.response 200 (some (Json.obj
           [("result", Json.obj [("jwt", Json.str "tok")])])),
         HttpResult.response 200 (some (Json.obj
           [("result", Json.obj [("valid", Json.bool false)])]))⟩ =
      ConfigureResult.ret (some ⟨"http://k:7512", "tok"⟩)
        [apiKeyInvalidDiag KErr.invalidToken] :=
  providerConfigure_apiKey_failure_keeps_userPass_config
    "http://k:7512" "key1" "alice" "pw" "tok" KErr.invalidToken
    ⟨HttpResult.response 200 none,
     HttpResult.response 200 (some (Json.obj
       [("result", Json.obj [("jwt", Json.str "tok")])])),
     HttpResult.response 200 (some (Json.obj
       [("result", Json.obj [("valid", Json.bool false)])]))⟩
    rfl (by decide) (by decide) rfl (by decide) rfl

/-- When the api_key/anonymous blocks return (entered with empty
diagnostics), either a Config is produced, or none is together with the
api_key Error diagnostic — and the no-Config case happens exactly when
the blocks were entered with no Config, api_key is non-empty, and the
api_key check failed. -/
theorem afterAuth_ret_inv (endpoint apiKey : String) (config : Option Config)
    (w : World) (cfg : Option Config) (diags : List Diagnostic)
    (h : afterAuth endpoint apiKey config [] w = ConfigureResult.ret cfg diags) :
    (cfg.isSome = true ∨
      (cfg = none ∧ diags.any (fun d => d.severity == Severity.error) = true)) ∧
    (cfg = none ↔
      config = none ∧ apiKey ≠ "" ∧ (checkToken w.checkTok).isErr = true) := by
  unfold afterAuth at h
  by_cases hk : apiKey ≠ ""
  · rw [if_pos hk] at h
    cases htok : checkToken w.checkTok with
    | panic =>
      rw [htok] at h
      exact absurd h (by simp)
    | ok a =>
      rw [htok] at h
      injection h with h1 h2
      subst h1; subst h2
      exact ⟨Or.inl rfl, by simp [Outcome.isErr, htok]⟩
    | err e =>
      rw [htok] at h
      injection h with h1 h2
      subst h1; subst h2
      cases config with
      | some c => exact ⟨Or.inl rfl, by simp⟩
      | none =>
        refine ⟨Or.inr ⟨rfl, by simp [apiKeyInvalidDiag]⟩, ?_⟩
        simp [Outcome.isErr, htok, hk]
  · have hk0 : apiKey = "" := not_ne_iff.mp hk
    rw [if_neg hk] at h
    cases config with
    | none =>
      injection h with h1 h2
      subst h1; subst h2
      exact ⟨Or.inl rfl, by simp [hk0]⟩
    | some c =>
      injection h with h1 h2
      subst h1; subst h2
      exact ⟨Or.inl rfl, by simp⟩

/-- C4 (amended): whenever `providerConfigure` returns (it can also
panic, see C3), it produces exactly one Config, or none together with
at least one Error diagnostic; and the no-Config outcome occurs exactly
when a helper operation fails: the connection check fails, or both
credentials are supplied and the login fails, or the username/password
branch is not taken (a credential is empty), api_key is non-empty and
the api_key check fails. -/
theorem providerConfigure_ret_inv
    (endpoint apiKey username password : String) (w : World)
    (cfg : Option Config) (diags : List Diagnostic)
    (h : providerConfigure endpoint apiKey username password w =
      ConfigureResult.ret cfg diags) :
    (cfg.isSome = true ∨
      (cfg = none ∧ diags.any (fun d => d.severity == Severity.error) = true)) ∧
    (cfg = none ↔
      checkConnection w.root ≠ none ∨
      (username ≠ "" ∧ password ≠ "" ∧ (tryAuthenticate w.login).isErr = true) ∨
      (¬(username ≠ "" ∧ password ≠ "") ∧ apiKey ≠ "" ∧
        (checkToken w.checkTok).isErr = true)) := by
  unfold providerConfigure at h
  rcases hconn : checkConnection w.root with _ | e
  case some =>
    rw [hconn] at h
    injection h with h1 h2
    subst h1; subst h2
    refine ⟨Or.inr ⟨rfl, by simp [connectDiag]⟩, ?_⟩
    constructor
    · intro _
      exact Or.inl (by simp [hconn])
    · intro _
      rfl
  case none =>
    rw [hconn] at h
    by_cases hup : username ≠ "" ∧ password ≠ ""
    · rw [if_pos hup] at h
      cases hauth : tryAuthenticate w.login with
      | panic =>
        rw [hauth] at h
        exact absurd h (by simp)
      | ok jwt =>
        rw [hauth] at h
        have hinv := afterAuth_ret_inv endpoint apiKey (some ⟨endpoint, jwt⟩) w cfg diags h
        refine ⟨hinv.1, ?_⟩
        constructor
        · intro hc
          exact absurd (hinv.2.mp hc).1 (by simp)
        · rintro (hd | ⟨_, _, herr⟩ | ⟨hnup, _, _⟩)
          · exact absurd rfl hd
          · simp [Outcome.isErr] at herr
          · exact absurd hup hnup
      | err e =>
        rw [hauth] at h
        injection h with h1 h2
        subst h1; subst h2
        refine ⟨Or.inr ⟨rfl, by simp [authFailedDiag]⟩, ?_⟩
        constructor
        · intro _
          exact Or.inr (Or.inl ⟨hup.1, hup.2, by simp [Outcome.isErr, hauth]⟩)
        · intro _
          rfl
    · rw [if_neg hup] at h
      have hinv := afterAuth_ret_inv endpoint apiKey none w cfg diags h
      refine ⟨hinv.1, ?_⟩
      constructor
      · intro hc
        obtain ⟨_, hk, herr⟩ := hinv.2.mp hc
        exact Or.inr (Or.inr ⟨hup, hk, herr⟩)
      · rintro (hd | ⟨hu, hp, _⟩ | ⟨_, hk, herr⟩)
        · exact absurd rfl hd
        · exact absurd ⟨hu, hp⟩ hup
        · exact hinv.2.mpr ⟨rfl, hk, herr⟩

/-- Witness for the amended C4, at a no-Config outcome caused by a
failing api_key check (server answers `result.valid = false`) with no
username/password pair supplied. -/
theorem providerConfigure_ret_inv_witness :
    ((none : Option Config).isSome = true ∨
      ((none : Option Config) = none ∧
        ([apiKeyInvalidDiag KErr.invalidToken].any
          (fun d => d.severity == Severity.error)) = true)) ∧
    ((none : Option Config) = none ↔
      checkConnection (HttpResult.response 200 none) ≠ none ∨
      (("" : String) ≠ "" ∧ ("" : String) ≠ "" ∧
        (tryAuthenticate (HttpResult.response 200 none)).isErr = true) ∨
      (¬(("" : String) ≠ "" ∧ ("" : String) ≠ "") ∧ ("bad" : String) ≠ "" ∧
        (checkToken (HttpResult.response 200 (some (Json.obj
          [("result", Json.obj [("valid", Json.bool false)])])))).isErr = true)) :=
  providerConfigure_ret_inv "http://w:7512" "bad" "" ""
    ⟨HttpResult.response 200 none, HttpResult.response 200 none,
     HttpResult.response 200 (some (Json.obj
       [("result", Json.obj [("valid", Json.bool false)])]))⟩
    none [apiKeyInvalidDiag KErr.invalidToken] rfl

/-- C4 (counterexample): the connection check succeeds, yet the login
failure leaves the configurator returning no Config (with the
authentication Error diagnostic) — refuting "the no-Config outcome
occurs only when the connection check fails outright". -/
theorem providerConfigure_no_config_without_connection_failure :
    checkConnection (HttpResult.response 200 (some (Json.obj []))) = none ∧
    providerConfigure "http://kuzzle:7512" "" "user" "badpass"
        ⟨HttpResult.response 200 (some (Json.obj [])),
         HttpResult.response 401 none,
         HttpResult.response 200 none⟩ =
      ConfigureResult.ret none [authFailedDiag KErr.authFailed] :=
  ⟨rfl, rfl⟩

/-- C10: on an endpoint string that `url.Parse` rejects (it returns a
nil URL and a non-nil error, e.g. a URL containing a control character),
the endpoint validator does not return its accumulated errors: reading
`URL.Scheme` dereferences the nil pointer and panics. -/
theorem validateEndpoint_panics_on_parse_failure :
    validateEndpoint "http://kuzzle\n:7512" "endpoint" ⟨none, true⟩ =
      ValidateResult.panicked := rfl

end Kuzzle
